import Mathlib

/-!
Verification of the JSON `VariantToMapConverter` of the Tiled RTB fork
(`src/plugins/json/varianttomapconverter.cpp`) against its specification.

The converter is embedded shallowly: the generic dynamic-value tree
(`QVariant`) becomes the inductive `Variant`, the Qt coercion layer becomes
explicit total functions, the converter's member state (`mError`,
`mGidMapper`, `mMapDir`) becomes an explicit `ConvState` threaded through the
translation functions, and the external collaborators of spec §6 (image
decoding, color validation, object-category lookup) become an `Env` of
abstract functions.  Entities of the document model that live outside the
provided source (tileset tile-sequence operations, the global-id mapper) are
modelled from the spec and marked as such.
-/

set_option autoImplicit false
set_option maxRecDepth 4000

namespace Tiled

/-- Modelled from the spec: the generic dynamic-value tree produced by the
external JSON parser (§6): maps with string keys, lists, and scalar values.
`null` stands both for JSON null and for the invalid `QVariant` that a failed
map lookup yields. -/
inductive Variant where
  | null
  | vBool (b : Bool)
  | vInt (n : Int)
  | vReal (r : Rat)
  | vStr (s : String)
  | vList (l : List Variant)
  | vMap (m : List (String × Variant))

/-- Modelled from the spec: digit-run parsing used by the strict coercion
layer (§9); the whole character list must consist of decimal digits. -/
def digitsVal (l : List Char) : Option Nat :=
  match l with
  | [] => none
  | _ => l.foldl (fun acc c =>
      acc.bind fun n => if c.isDigit then some (n * 10 + (c.toNat - 48)) else none)
      (some 0)

/-- Modelled from the spec: `QString::toInt` semantics — optional sign then
digits, whole-string, `none` on any failure. -/
def parseInt? (s : String) : Option Int :=
  match s.data with
  | '-' :: rest => (digitsVal rest).map fun n => -(n : Int)
  | '+' :: rest => (digitsVal rest).map fun n => (n : Int)
  | l => (digitsVal l).map fun n => (n : Int)

/-- Modelled from the spec: `QString::toUInt` semantics — optional plus sign
then digits, must fit in 32 bits. -/
def parseUInt? (s : String) : Option Nat :=
  let body := match s.data with
    | '+' :: rest => rest
    | l => l
  (digitsVal body).bind fun n => if n < 2 ^ 32 then some n else none

/-- Modelled from the spec: decimal-fraction parsing for real-valued fields
(sign, digits, optional fractional part). -/
def parseRat? (s : String) : Option Rat :=
  let core : List Char → Option Rat := fun l =>
    match (String.mk l).splitOn "." with
    | [ip] => (digitsVal ip.data).map fun n => (n : Rat)
    | [ip, fp] =>
        (digitsVal ip.data).bind fun a =>
          (digitsVal fp.data).map fun b =>
            (a : Rat) + (b : Rat) / ((10 : Rat) ^ fp.length)
    | _ => none
  match s.data with
  | '-' :: rest => (core rest).map Neg.neg
  | '+' :: rest => core rest
  | l => core l

/-- Modelled from the spec: Qt `qRound` — round half away from zero. -/
def qRound (r : Rat) : Int :=
  if 0 ≤ r then ⌊r + 1 / 2⌋ else ⌈r - 1 / 2⌉

/-- Modelled from the spec: `QVariant::toString`, with `none` standing for the
null `QString` an unconvertible or invalid variant yields. -/
def toStringOptQ : Variant → Option String
  | .null => none
  | .vBool b => some (if b then "true" else "false")
  | .vInt n => some (toString n)
  | .vReal r => some (toString r)
  | .vStr s => some s
  | .vList _ => none
  | .vMap _ => none

def toStringQ (v : Variant) : String :=
  (toStringOptQ v).getD ""

/-- Modelled from the spec: `QVariant::toInt` without an ok flag — defaults
to 0 on any failure (§9 default-on-failure coercion). -/
def toIntQ : Variant → Int
  | .null => 0
  | .vBool b => if b then 1 else 0
  | .vInt n => n
  | .vReal r => qRound r
  | .vStr s => (parseInt? s).getD 0
  | .vList _ => 0
  | .vMap _ => 0

/-- Modelled from the spec: `QVariant::toInt(&ok)`. -/
def toIntOkQ : Variant → Option Int
  | .null => none
  | .vBool b => some (if b then 1 else 0)
  | .vInt n => some n
  | .vReal r => some (qRound r)
  | .vStr s => parseInt? s
  | .vList _ => none
  | .vMap _ => none

/-- Modelled from the spec: `QVariant::toUInt(&ok)`; integral and real values
convert with 32-bit wraparound, strings parse strictly. -/
def toUIntOkQ : Variant → Option Nat
  | .null => none
  | .vBool b => some (if b then 1 else 0)
  | .vInt n => some ((n.emod (2 ^ 32)).toNat)
  | .vReal r => some (((qRound r).emod (2 ^ 32)).toNat)
  | .vStr s => parseUInt? s
  | .vList _ => none
  | .vMap _ => none

/-- Modelled from the spec: `QVariant::toReal`/`toDouble`, with rationals
standing for the real scalars (no claim depends on float rounding). -/
def toRealQ : Variant → Rat
  | .null => 0
  | .vBool b => if b then 1 else 0
  | .vInt n => (n : Rat)
  | .vReal r => r
  | .vStr s => (parseRat? s).getD 0
  | .vList _ => 0
  | .vMap _ => 0

/-- Modelled from the spec: `QVariant::toFloat(&ok)`. -/
def toFloatOkQ : Variant → Option Rat
  | .null => none
  | .vBool b => some (if b then 1 else 0)
  | .vInt n => some ((n : Rat))
  | .vReal r => some r
  | .vStr s => parseRat? s
  | .vList _ => none
  | .vMap _ => none

/-- Modelled from the spec: `QVariant::toBool` — false for null/invalid,
strings are true unless empty, "0" or "false", numbers are true iff nonzero. -/
def toBoolQ : Variant → Bool
  | .null => false
  | .vBool b => b
  | .vInt n => n != 0
  | .vReal r => r != 0
  | .vStr s => !(s == "" || s == "0" || s == "false")
  | .vList _ => false
  | .vMap _ => false

def toMapQ : Variant → List (String × Variant)
  | .vMap m => m
  | _ => []

def toListQ : Variant → List Variant
  | .vList l => l
  | _ => []

/-- Key lookup in a generic map; `none` when the key is absent. -/
def lookupOpt (m : List (String × Variant)) (k : String) : Option Variant :=
  (m.find? fun e => e.1 == k).map Prod.snd

/-- `QVariantMap::operator[]` on a const map: the stored value, or the
default-constructed (invalid) variant when the key is absent. -/
def lookupQ (m : List (String × Variant)) (k : String) : Variant :=
  (lookupOpt m k).getD .null

/-- `QVariantMap::contains`. -/
def containsQ (m : List (String × Variant)) (k : String) : Bool :=
  (lookupOpt m k).isSome

/-- `QVariant::isNull` (also true for the invalid variant). -/
def variantIsNull : Variant → Bool
  | .null => true
  | _ => false

/-- `QVariant::isValid`. -/
def variantIsValid (v : Variant) : Bool :=
  !(variantIsNull v)

/-- Modelled from the spec: comparison of a variant against a string literal
(`variantMap["type"] == "tilelayer"`); only a string-typed variant can equal
a string literal in the uses the converter makes. -/
def variantEqStr (v : Variant) (s : String) : Bool :=
  match v with
  | .vStr t => t == s
  | _ => false

/-- `QString::toInt()` with its implicit default of 0. -/
def toIntQstr (s : String) : Int :=
  (parseInt? s).getD 0

/-- Modelled from the spec: `QDir::isRelativePath` of the base-directory
collaborator (§6); a path is relative unless it starts with "/" or with the
":" resource prefix. -/
def isRelativePathQ (s : String) : Bool :=
  match s.data with
  | [] => true
  | c :: _ => !(c == '/' || c == ':')

/-- Modelled from the spec: canonicalization by the base-directory
collaborator (§6), represented as the identity on already-clean joined
paths. -/
def cleanPathQ (s : String) : String := s

/-- Modelled from the spec: `QDir::absoluteFilePath` of the base-directory
collaborator (§6). -/
def absoluteFilePathQ (dir fileName : String) : String :=
  dir ++ "/" ++ fileName

/-- `resolvePath` (varianttomapconverter.cpp lines 38-44): relative paths are
joined to the document's base directory and cleaned, absolute paths pass
through. -/
def resolvePath (dir : String) (variant : Variant) : String :=
  let fileName := toStringQ variant
  if isRelativePathQ fileName then cleanPathQ (absoluteFilePathQ dir fileName)
  else fileName

/-- Map orientation enumeration (spec §3). -/
inductive MapOrientation where
  | unknown
  | orthogonal
  | isometric
  | staggered
  | hexagonal
deriving DecidableEq

/-- Modelled from the spec: `orientationFromString` (map helpers outside
src/); one of the fixed orientation names, otherwise unknown (§3). -/
def orientationFromString (s : String) : MapOrientation :=
  if s == "orthogonal" then .orthogonal
  else if s == "isometric" then .isometric
  else if s == "staggered" then .staggered
  else if s == "hexagonal" then .hexagonal
  else .unknown

inductive StaggerAxis where
  | x
  | y
deriving DecidableEq

/-- Modelled from the spec: stagger-axis parser (map helpers outside src/). -/
def staggerAxisFromString (s : String) : StaggerAxis :=
  if s == "x" then .x else .y

inductive StaggerIndex where
  | odd
  | even
deriving DecidableEq

/-- Modelled from the spec: stagger-index parser (map helpers outside src/). -/
def staggerIndexFromString (s : String) : StaggerIndex :=
  if s == "even" then .even else .odd

inductive RenderOrder where
  | rightDown
  | rightUp
  | leftDown
  | leftUp
deriving DecidableEq

/-- Modelled from the spec: render-order parser (map helpers outside src/). -/
def renderOrderFromString (s : String) : RenderOrder :=
  if s == "right-up" then .rightUp
  else if s == "left-down" then .leftDown
  else if s == "left-up" then .leftUp
  else .rightDown

/-- Object-group draw order (spec §3): index order, top-down order, or the
unknown/invalid order. -/
inductive DrawOrder where
  | unknownOrder
  | topDownOrder
  | indexOrder
deriving DecidableEq

/-- Modelled from the spec: draw-order parser (§4.3): "topdown" and "index"
are the recognized values; any other value is the unknown/invalid order. -/
def drawOrderFromString (s : String) : DrawOrder :=
  if s == "topdown" then .topDownOrder
  else if s == "index" then .indexOrder
  else .unknownOrder

/-- The document's flat string-keyed property bag (spec §3). -/
abbrev Properties := List (String × String)

/-- `toProperties` (lines 116-128): every entry of the generic map coerced to
a string value. -/
def toProperties (variant : Variant) : Properties :=
  (toMapQ variant).map fun e => (e.1, toStringQ e.2)

/-- A resolved tile reference: the owning tileset's firstGid key, the local
tile index, and the referenced tile's pixel size (consumed by the object
tile-stamp backfill). -/
structure CellRef where
  firstGid : Int
  tileId : Int
  tileWidth : Int
  tileHeight : Int
deriving DecidableEq

/-- Modelled from the spec: a Cell is a reference to a (tileset,
local-tile-index) pair, or empty (§3). -/
abbrev Cell := Option CellRef

/-- Object shapes (spec §3); rectangle is the default. -/
inductive Shape where
  | rectangle
  | ellipse
  | polygon
  | polyline
deriving DecidableEq

/-- The ~12 gameplay object categories of the game-extension builder
(spec §4.5), pre-derived from the object's type string by an external
collaborator. -/
inductive RTBObjectType where
  | customFloorTrap
  | movingFloorTrapSpawner
  | button
  | laserBeam
  | projectileTurret
  | teleporter
  | target
  | floorText
  | cameraTrigger
  | startLocation
  | finishHole
  | npcBallSpawner
  | noType
deriving DecidableEq

/-- The typed game-specific payload attached to a placed object, one variant
per category (spec §3, §4.5). -/
inductive RTBMapObject where
  | customFloorTrap (intervalSpeed intervalOffset : Int)
  | movingFloorTrapSpawner (spawnAmount intervalSpeed randomizeStart : Int)
  | button (beatsActive : Int) (laserBeamTargets : String)
  | laserBeam (beamType activatedOnStart directionDegrees targetDirectionDegrees
      intervalOffset intervalSpeed : Int)
  | projectileTurret (intervalSpeed intervalOffset projectileSpeed shotDirection : Int)
  | teleporter (teleporterTarget : String)
  | target
  | floorText (text : String) (maxCharacters : Int)
      (triggerZoneWidth triggerZoneHeight : Int) (useTrigger : Int)
      (scale offsetX offsetY : Rat)
  | cameraTrigger (cameraTarget : String)
      (triggerZoneWidth triggerZoneHeight cameraHeight cameraAngle : Int)
  | startLocation
  | finishHole
  | npcBallSpawner (spawnClass size intervalOffset spawnFrequency speed direction : Int)
  | noop
deriving DecidableEq

/-- A placed map object (spec §3). -/
structure MapObject where
  name : String
  objType : String
  id : Int
  x : Rat
  y : Rat
  width : Rat
  height : Rat
  rotation : Rat
  cell : Cell
  visible : Bool
  shape : Shape
  polygon : List (Rat × Rat)
  properties : Properties
  rtb : RTBMapObject

/-- An object-group layer (spec §3). -/
structure ObjectGroup where
  name : String
  x : Int
  y : Int
  width : Int
  height : Int
  opacity : Rat
  visible : Bool
  color : Option String
  drawOrder : DrawOrder
  objects : List MapObject
  properties : Properties

/-- One animation frame of a tile (spec §3). -/
structure Frame where
  tileId : Int
  duration : Int
deriving DecidableEq

/-- A tile entity of a tileset (spec §3): four corner terrain slots with the
-1 sentinel, optional probability, optional override image with its pixel
size, optional nested object group, animation frames, property bag. -/
structure Tile where
  id : Int
  tileWidth : Int
  tileHeight : Int
  terrain : List Int
  terrainProbability : Option Rat
  imageSource : Option String
  objectGroup : Option ObjectGroup
  frames : List Frame
  properties : Properties

/-- A tileset entity (spec §3). -/
structure Tileset where
  name : String
  tileWidth : Int
  tileHeight : Int
  tileSpacing : Int
  margin : Int
  tileOffsetX : Int
  tileOffsetY : Int
  transparentColor : Option String
  imageSource : Option String
  terrains : List (String × Int)
  tiles : List Tile
  properties : Properties

/-- Modelled from the spec: a freshly added placeholder empty tile of the
growable tile sequence (§3, §4.2). -/
def placeholderTile (id : Int) : Tile :=
  { id := id, tileWidth := 0, tileHeight := 0, terrain := [-1, -1, -1, -1],
    terrainProbability := none, imageSource := none, objectGroup := none,
    frames := [], properties := [] }

def Tileset.tileCount (ts : Tileset) : Int :=
  (ts.tiles.length : Int)

/-- Modelled from the spec: `Tileset::tileAt` (tileset.cpp outside src/) —
the tile at a local index, or nothing when the index is out of range. -/
def Tileset.tileAt (ts : Tileset) (i : Int) : Option Tile :=
  if i < 0 then none else ts.tiles.get? i.toNat

/-- Modelled from the spec: `Tileset::addTile` with an empty pixmap — appends
one placeholder tile (§4.2 on-demand growth). -/
def Tileset.addTile (ts : Tileset) : Tileset :=
  { ts with tiles := ts.tiles ++ [placeholderTile (ts.tiles.length : Int)] }

def Tileset.addTiles (ts : Tileset) : Nat → Tileset
  | 0 => ts
  | k + 1 => (ts.addTile).addTiles k

/-- The growth loop of toTileset (lines 201-202): add placeholder tiles until
the sequence covers `tileIndex`. -/
def Tileset.extendTo (ts : Tileset) (tileIndex : Int) : Tileset :=
  ts.addTiles ((tileIndex + 1 - (ts.tiles.length : Int)).toNat)

/-- Replace the tile stored at a (valid) local index. -/
def Tileset.setTileAt (ts : Tileset) (i : Int) (t : Tile) : Tileset :=
  { ts with tiles := ts.tiles.set i.toNat t }

/-- A tile-grid layer (spec §3): dense row-major grid of cells. -/
structure TileLayer where
  name : String
  x : Int
  y : Int
  width : Int
  height : Int
  opacity : Rat
  visible : Bool
  cells : List Cell
  properties : Properties

/-- An image layer (spec §3). -/
structure ImageLayer where
  name : String
  x : Int
  y : Int
  width : Int
  height : Int
  opacity : Rat
  visible : Bool
  transparentColor : Option String
  image : Option (String × Int × Int)
  properties : Properties

/-- The polymorphic layer (spec §3). -/
inductive Layer where
  | tile (t : TileLayer)
  | group (g : ObjectGroup)
  | image (i : ImageLayer)

def Layer.setProperties : Layer → Properties → Layer
  | .tile t, p => .tile { t with properties := p }
  | .group g, p => .group { g with properties := p }
  | .image i, p => .image { i with properties := p }

/-- The game-metadata record attached to the document (spec §3),
populated by `toRTBMap` (lines 457-491). -/
structure RTBMap where
  hasError : Int
  customGlowColor : Option String
  customBackgroundColor : Option String
  levelBrightness : Rat
  cloudDensity : Rat
  cloudVelocity : Rat
  cloudAlpha : Rat
  snowDensity : Rat
  snowVelocity : Rat
  snowRisingVelocity : Rat
  cameraGrain : Rat
  cameraContrast : Rat
  cameraSaturation : Rat
  cameraGlow : Rat
  hasWall : Int
  levelName : String
  levelDescription : String
  backgroundColorScheme : Int
  glowColorScheme : Int
  chapter : Int
  hasStarfield : Int
  difficulty : Int
  playStyle : Int
  workShopId : Int
  previewImagePath : String

/-- The document (spec §3). -/
structure Map where
  orientation : MapOrientation
  width : Int
  height : Int
  tileWidth : Int
  tileHeight : Int
  hexSideLength : Int
  staggerAxis : StaggerAxis
  staggerIndex : StaggerIndex
  renderOrder : RenderOrder
  nextObjectId : Int
  backgroundColor : Option String
  rtbMap : RTBMap
  properties : Properties
  tilesets : List Tileset
  layers : List Layer

/-- Modelled from the spec: the external collaborators the converter consumes
(§6): (a) image decoding — for the tileset's shared image the decoded,
already cut tile sequence, for an image layer the decoded pixel dimensions,
for a tile's override pixmap its pixel size (the null pixmap has size 0×0);
Qt color validation; and (c) the object-type → extension-category lookup. -/
structure Env where
  loadTilesetImage : String → Option (List Tile)
  loadImage : String → Option (Int × Int)
  pixmapSize : String → Int × Int
  isValidColor : String → Bool
  rtbObjectType : String → RTBObjectType

/-- The converter's member state: the pending error string, the global-id
mapper's registered (firstGid, tileset) ranges, and the document's base
directory. -/
structure ConvState where
  mError : String
  mGidMapper : List (Int × Tileset)
  mMapDir : String

/-- Modelled from the spec: the registered range with the greatest firstGid
not exceeding the queried gid (§4.1); on equal keys the later registration
wins, as a `QMap` insert replaces. -/
def bestGidEntry (gm : List (Int × Tileset)) (gid : Int) : Option (Int × Tileset) :=
  gm.foldl (fun acc e =>
    if e.1 ≤ gid then
      match acc with
      | none => some e
      | some a => if a.1 ≤ e.1 then some e else acc
    else acc) none

/-- Modelled from the spec: `GidMapper::gidToCell` (gidmapper.cpp outside
src/), per §4.1 and the §3 invariant: gid 0 is the empty cell; otherwise the
tileset with the greatest firstGid ≤ gid is selected and the local index is
gid − firstGid; a local index outside the tile sequence resolves to the
empty, not-ok cell. -/
def gidToCell (gm : List (Int × Tileset)) (gid : Nat) : Cell :=
  if gid == 0 then none
  else
    match bestGidEntry gm (gid : Int) with
    | none => none
    | some e =>
        let localId : Int := (gid : Int) - e.1
        match e.2.tileAt localId with
        | none => none
        | some t =>
            some { firstGid := e.1, tileId := localId,
                   tileWidth := t.tileWidth, tileHeight := t.tileHeight }

/-- `toPolygon` (lines 445-455): the list of {x,y} records as an ordered
point sequence. -/
def toPolygon (variant : Variant) : List (Rat × Rat) :=
  (toListQ variant).map fun pointVariant =>
    let pm := toMapQ pointVariant
    (toRealQ (lookupQ pm "x"), toRealQ (lookupQ pm "y"))

/-- `toRTBMapObject` (lines 493-617): the switch over the object's extension
category, each case reading its fixed set of named fields. -/
def toRTBMapObject (objectType : RTBObjectType)
    (variantMap : List (String × Variant)) : RTBMapObject :=
  match objectType with
  | .customFloorTrap =>
      .customFloorTrap (toIntQ (lookupQ variantMap "intervalspeed"))
        (toIntQ (lookupQ variantMap "intervaloffset"))
  | .movingFloorTrapSpawner =>
      .movingFloorTrapSpawner (toIntQ (lookupQ variantMap "spawnamount"))
        (toIntQ (lookupQ variantMap "intervalspeed"))
        (toIntQ (lookupQ variantMap "randomizestart"))
  | .button =>
      .button (toIntQ (lookupQ variantMap "beatsactive"))
        (toStringQ (lookupQ variantMap "laserbeamtargets"))
  | .laserBeam =>
      .laserBeam (toIntQ (lookupQ variantMap "beamtype"))
        (toIntQ (lookupQ variantMap "activatedonstart"))
        (toIntQ (lookupQ variantMap "directiondegrees"))
        (toIntQ (lookupQ variantMap "targetdirectiondegrees"))
        (toIntQ (lookupQ variantMap "intervaloffset"))
        (toIntQ (lookupQ variantMap "intervalspeed"))
  | .projectileTurret =>
      .projectileTurret (toIntQ (lookupQ variantMap "intervalspeed"))
        (toIntQ (lookupQ variantMap "intervaloffset"))
        (toIntQ (lookupQ variantMap "projectilespeed"))
        (toIntQ (lookupQ variantMap "shotdirection"))
  | .teleporter =>
      let target := toStringQ (lookupQ variantMap "teleportertarget")
      .teleporter (if target != "0" then target else "")
  | .target => .target
  | .floorText =>
      .floorText (toStringQ (lookupQ variantMap "text"))
        (toIntQ (lookupQ variantMap "maxcharacters"))
        (toIntQ (lookupQ variantMap "triggerzonewidth"))
        (toIntQ (lookupQ variantMap "triggerzoneheight"))
        (toIntQ (lookupQ variantMap "usetrigger"))
        (toRealQ (lookupQ variantMap "scale"))
        (toRealQ (lookupQ variantMap "offsetx"))
        (toRealQ (lookupQ variantMap "offsety"))
  | .cameraTrigger =>
      let target := toStringQ (lookupQ variantMap "cameratarget")
      .cameraTrigger (if target != "0" then target else "")
        (toIntQ (lookupQ variantMap "cameratriggerzonewidth"))
        (toIntQ (lookupQ variantMap "cameratriggerzoneheight"))
        (toIntQ (lookupQ variantMap "cameraheight"))
        (toIntQ (lookupQ variantMap "cameraangle"))
  | .startLocation => .startLocation
  | .finishHole => .finishHole
  | .npcBallSpawner =>
      .npcBallSpawner (toIntQ (lookupQ variantMap "spawnclass"))
        (toIntQ (lookupQ variantMap "size"))
        (toIntQ (lookupQ variantMap "intervaloffset"))
        (toIntQ (lookupQ variantMap "spawnfrequency"))
        (toIntQ (lookupQ variantMap "speed"))
        (toIntQ (lookupQ variantMap "direction"))
  | .noType => .noop

/-- The body of the objects loop of `toObjectGroup` (lines 351-407): one
object record turned into a placed MapObject; the loop never fails and never
writes converter state, so the body is a pure function of the state. -/
def buildObject (env : Env) (st : ConvState)
    (objectVariantMap : List (String × Variant)) : MapObject :=
  let name := toStringQ (lookupQ objectVariantMap "name")
  let objType := toStringQ (lookupQ objectVariantMap "type")
  let id := toIntQstr (toStringQ (lookupQ objectVariantMap "id"))
  let gid := toIntQ (lookupQ objectVariantMap "gid")
  let x := toRealQ (lookupQ objectVariantMap "x")
  let y := toRealQ (lookupQ objectVariantMap "y")
  let width := toRealQ (lookupQ objectVariantMap "width")
  let height := toRealQ (lookupQ objectVariantMap "height")
  let rotation := toRealQ (lookupQ objectVariantMap "rotation")
  let cell : Cell :=
    if gid ≠ 0 then gidToCell st.mGidMapper ((gid.emod (2 ^ 32)).toNat) else none
  let (width1, height1) :=
    match cell with
    | some c =>
        (if width = 0 then (c.tileWidth : Rat) else width,
         if height = 0 then (c.tileHeight : Rat) else height)
    | none => (width, height)
  let visible :=
    if containsQ objectVariantMap "visible" then toBoolQ (lookupQ objectVariantMap "visible")
    else true
  let properties := toProperties (lookupQ objectVariantMap "properties")
  let polylineVariant := lookupQ objectVariantMap "polyline"
  let polygonVariant := lookupQ objectVariantMap "polygon"
  let sp1 : Shape × List (Rat × Rat) :=
    if variantIsValid polygonVariant then (Shape.polygon, toPolygon polygonVariant)
    else (Shape.rectangle, [])
  let sp2 : Shape × List (Rat × Rat) :=
    if variantIsValid polylineVariant then (Shape.polyline, toPolygon polylineVariant)
    else sp1
  let shape := if containsQ objectVariantMap "ellipse" then Shape.ellipse else sp2.1
  let rtb := toRTBMapObject (env.rtbObjectType objType) objectVariantMap
  { name := name, objType := objType, id := id, x := x, y := y,
    width := width1, height := height1, rotation := rotation, cell := cell,
    visible := visible, shape := shape, polygon := sp2.2,
    properties := properties, rtb := rtb }

/-- `toObjectGroup` (lines 325-411): the common layer fields, the optional
tint color, the draw-order check (a non-empty unrecognized value is fatal),
then the ordered object sequence. -/
def toObjectGroup (env : Env) (st : ConvState)
    (variantMap : List (String × Variant)) : Option ObjectGroup × ConvState :=
  let name := toStringQ (lookupQ variantMap "name")
  let x := toIntQ (lookupQ variantMap "x")
  let y := toIntQ (lookupQ variantMap "y")
  let width := toIntQ (lookupQ variantMap "width")
  let height := toIntQ (lookupQ variantMap "height")
  let opacity := toRealQ (lookupQ variantMap "opacity")
  let visible := toBoolQ (lookupQ variantMap "visible")
  let color : Option String :=
    match lookupQ variantMap "color" with
    | .vStr s => some s
    | _ => none
  let drawOrderString := toStringQ (lookupQ variantMap "draworder")
  if drawOrderString != "" && drawOrderFromString drawOrderString == DrawOrder.unknownOrder then
    (none, { st with mError := "Invalid draw order: " ++ drawOrderString })
  else
    let drawOrder :=
      if drawOrderString == "" then DrawOrder.topDownOrder
      else drawOrderFromString drawOrderString
    let objects :=
      (toListQ (lookupQ variantMap "objects")).map fun objectVariant =>
        buildObject env st (toMapQ objectVariant)
    (some { name := name, x := x, y := y, width := width, height := height,
            opacity := opacity, visible := visible, color := color,
            drawOrder := drawOrder, objects := objects, properties := [] }, st)

/-- The data loop of `toTileLayer` (lines 299-320): each entry read as a
32-bit unsigned gid (a non-numeric entry is fatal with its (x,y) position),
resolved through the global-id mapper and written at the row-major cell
position, the column counter wrapping at the layer width. -/
def fillCells (gm : List (Int × Tileset)) (w : Int) (layerName : String)
    (x y : Int) (grid : List Cell) : List Variant → Except String (List Cell)
  | [] => .ok grid
  | gidVariant :: rest =>
    match toUIntOkQ gidVariant with
    | none =>
        .error ("Unable to parse tile at (" ++ toString x ++ "," ++ toString y
          ++ ") on layer '" ++ layerName ++ "'")
    | some gid =>
        let cell := gidToCell gm gid
        let grid1 := grid.set (x + y * w).toNat cell
        if w ≤ x + 1 then fillCells gm w layerName 0 (y + 1) grid1 rest
        else fillCells gm w layerName (x + 1) y grid1 rest

/-- `toTileLayer` (lines 275-323): the data list length must equal
width×height exactly ("Corrupt layer data"), then the grid is filled in
row-major order. -/
def toTileLayer (env : Env) (st : ConvState)
    (variantMap : List (String × Variant)) : Option TileLayer × ConvState :=
  let name := toStringQ (lookupQ variantMap "name")
  let width := toIntQ (lookupQ variantMap "width")
  let height := toIntQ (lookupQ variantMap "height")
  let dataVariantList := toListQ (lookupQ variantMap "data")
  if (dataVariantList.length : Int) ≠ width * height then
    (none, { st with mError := "Corrupt layer data for layer '" ++ name ++ "'" })
  else
    let opacity := toRealQ (lookupQ variantMap "opacity")
    let visible := toBoolQ (lookupQ variantMap "visible")
    let grid0 : List Cell := List.replicate (width * height).toNat none
    match fillCells st.mGidMapper width name 0 0 grid0 dataVariantList with
    | .error e => (none, { st with mError := e })
    | .ok cells =>
        (some { name := name, x := toIntQ (lookupQ variantMap "x"),
                y := toIntQ (lookupQ variantMap "y"), width := width,
                height := height, opacity := opacity, visible := visible,
                cells := cells, properties := [] }, st)

/-- `toImageLayer` (lines 413-443): common fields, optional transparent
color, and the single image loaded relative to the base directory (decode
failure is fatal); a null image string skips the load. -/
def toImageLayer (env : Env) (st : ConvState)
    (variantMap : List (String × Variant)) : Option ImageLayer × ConvState :=
  let trans := toStringQ (lookupQ variantMap "transparentcolor")
  let base : ImageLayer :=
    { name := toStringQ (lookupQ variantMap "name"),
      x := toIntQ (lookupQ variantMap "x"),
      y := toIntQ (lookupQ variantMap "y"),
      width := toIntQ (lookupQ variantMap "width"),
      height := toIntQ (lookupQ variantMap "height"),
      opacity := toRealQ (lookupQ variantMap "opacity"),
      visible := toBoolQ (lookupQ variantMap "visible"),
      transparentColor := if trans != "" && env.isValidColor trans then some trans else none,
      image := none, properties := [] }
  match toStringOptQ (lookupQ variantMap "image") with
  | none => (some base, st)
  | some s =>
      let imagePath := resolvePath st.mMapDir (.vStr s)
      match env.loadImage imagePath with
      | none => (none, { st with mError := "Error loading image:\n'" ++ imagePath ++ "'" })
      | some dims => (some { base with image := some (imagePath, dims) }, st)

/-- `toLayer` (lines 257-273): dispatch on the `type` discriminator string;
an unrecognized type leaves the layer null; a successfully built layer
receives its property bag. -/
def toLayer (env : Env) (st : ConvState) (variant : Variant) : Option Layer × ConvState :=
  let variantMap := toMapQ variant
  let built : Option Layer × ConvState :=
    if variantEqStr (lookupQ variantMap "type") "tilelayer" then
      let r := toTileLayer env st variantMap
      (r.1.map Layer.tile, r.2)
    else if variantEqStr (lookupQ variantMap "type") "objectgroup" then
      let r := toObjectGroup env st variantMap
      (r.1.map Layer.group, r.2)
    else if variantEqStr (lookupQ variantMap "type") "imagelayer" then
      let r := toImageLayer env st variantMap
      (r.1.map Layer.image, r.2)
    else (none, st)
  match built with
  | (some l, st1) =>
      (some (l.setProperties (toProperties (lookupQ variantMap "properties"))), st1)
  | (none, st1) => (none, st1)

/-- The terrain-corner loop of `toTileset` (lines 209-215): exactly four
entries expected; a non-numeric or out-of-range entry leaves that corner
unset without failing. -/
def applyCorners (terrainCount : Int) (corners : List Int)
    (entries : List Variant) : List Int :=
  (List.range 4).foldl (fun cs i =>
    match toIntOkQ (entries.getD i .null) with
    | some terrainId =>
        if 0 ≤ terrainId ∧ terrainId < terrainCount then cs.set i terrainId else cs
    | none => cs) corners

/-- The per-tile override block of `toTileset` (lines 205-239): terrain
corners, terrain probability, override image (resolved relative to the base
directory, loaded as a pixmap), nested object group, animation frames; a
missing tile (out-of-range index) skips the block. -/
def applyTileOverrides (env : Env) (st : ConvState) (ts : Tileset)
    (tileIndex : Int) (tv : List (String × Variant)) : Tileset × ConvState :=
  match ts.tileAt tileIndex with
  | none => (ts, st)
  | some tile0 =>
    let terrains := toListQ (lookupQ tv "terrain")
    let tile1 :=
      if terrains.length == 4 then
        { tile0 with terrain := applyCorners (ts.terrains.length : Int) tile0.terrain terrains }
      else tile0
    let tile2 :=
      match toFloatOkQ (lookupQ tv "probability") with
      | some p => { tile1 with terrainProbability := some p }
      | none => tile1
    let imageVariant := lookupQ tv "image"
    let tile3 :=
      if variantIsNull imageVariant then tile2
      else
        let imagePath := resolvePath st.mMapDir imageVariant
        { tile2 with
          imageSource := some imagePath,
          tileWidth := (env.pixmapSize imagePath).1,
          tileHeight := (env.pixmapSize imagePath).2 }
    let objectGroupVariant := toMapQ (lookupQ tv "objectgroup")
    let r : Tile × ConvState :=
      if objectGroupVariant.isEmpty then (tile3, st)
      else
        let og := toObjectGroup env st objectGroupVariant
        ({ tile3 with objectGroup := og.1 }, og.2)
    let frameList := toListQ (lookupQ tv "animation")
    let tile5 :=
      if frameList.isEmpty then r.1
      else
        { r.1 with frames := frameList.map fun fv =>
            let fm := toMapQ fv
            { tileId := toIntQ (lookupQ fm "tileid"),
              duration := toIntQ (lookupQ fm "duration") } }
    (ts.setTileAt tileIndex tile5, r.2)

/-- The sparse tile-override loop of `toTileset` (lines 182-240): a negative
index sets the error string (without aborting); an index at or beyond the
current tile count grows the sequence with placeholders, unless it also
reaches the number of entries, which is fatal ("tile index too high"). -/
def toTilesetTiles (env : Env) (n : Nat) :
    ConvState → Tileset → List (String × Variant) → Option Tileset × ConvState
  | st, ts, [] => (some ts, st)
  | st, ts, entry :: rest =>
    let tileIndex := toIntQstr entry.1
    let st1 :=
      if tileIndex < 0 then
        { st with mError := "Tileset tile index negative:\n'" ++ toString tileIndex ++ "'" }
      else st
    if (ts.tiles.length : Int) ≤ tileIndex then
      if (n : Int) ≤ tileIndex then
        (none, { st1 with
          mError := "Tileset tile index too high:\n'" ++ toString tileIndex ++ "'" })
      else
        let ts1 := ts.extendTo tileIndex
        let r := applyTileOverrides env st1 ts1 tileIndex (toMapQ entry.2)
        toTilesetTiles env n r.2 r.1 rest
    else
      let r := applyTileOverrides env st1 ts tileIndex (toMapQ entry.2)
      toTilesetTiles env n r.2 r.1 rest

/-- The terrains loop of `toTileset` (lines 173-179): each terrain record's
name and representative tile appended in order. -/
def addTerrains (ts : Tileset) (l : List Variant) : Tileset :=
  l.foldl (fun ts tvar =>
    let terrainMap := toMapQ tvar
    { ts with terrains := ts.terrains ++
        [(toStringQ (lookupQ terrainMap "name"), toIntQ (lookupQ terrainMap "tile"))] }) ts

/-- The tile-property loop of `toTileset` (lines 242-251): property bags
applied to existing tiles only; out-of-range indices are silently ignored. -/
def applyTileProperties (ts : Tileset) (entries : List (String × Variant)) : Tileset :=
  entries.foldl (fun ts e =>
    let tileIndex := toIntQstr e.1
    if 0 ≤ tileIndex ∧ tileIndex < ts.tileCount then
      match ts.tileAt tileIndex with
      | some t => ts.setTileAt tileIndex { t with properties := toProperties e.2 }
      | none => ts
    else ts) ts

/-- `toTileset` (lines 130-255): parameter validation, the shared image — in
this fork loaded from the fixed resource path ":/rtb_resources/tileset/
Floor.png" instead of the record's resolved path (the `resolvePath` call of
line 163 is commented out, line 164 hardcodes the path) — tileset
properties, terrains, the tile-override loop, tile properties, and finally
registration with the global-id mapper under the firstGid. -/
def toTileset (env : Env) (st : ConvState) (variant : Variant) : Option Tileset × ConvState :=
  let variantMap := toMapQ variant
  let firstGid := toIntQ (lookupQ variantMap "firstgid")
  let name := toStringQ (lookupQ variantMap "name")
  let tileWidth := toIntQ (lookupQ variantMap "tilewidth")
  let tileHeight := toIntQ (lookupQ variantMap "tileheight")
  let tileSpacing := toIntQ (lookupQ variantMap "spacing")
  let margin := toIntQ (lookupQ variantMap "margin")
  let tileOffset := toMapQ (lookupQ variantMap "tileoffset")
  if tileWidth ≤ 0 ∨ tileHeight ≤ 0 ∨ firstGid = 0 then
    (none, { st with mError := "Invalid tileset parameters for tileset '" ++ name ++ "'" })
  else
    let trans := toStringQ (lookupQ variantMap "transparentcolor")
    let ts0 : Tileset :=
      { name := name, tileWidth := tileWidth, tileHeight := tileHeight,
        tileSpacing := tileSpacing, margin := margin,
        tileOffsetX := toIntQ (lookupQ tileOffset "x"),
        tileOffsetY := toIntQ (lookupQ tileOffset "y"),
        transparentColor := if trans != "" && env.isValidColor trans then some trans else none,
        imageSource := none, terrains := [], tiles := [], properties := [] }
    let imageVariant := lookupQ variantMap "image"
    let loaded : Option Tileset :=
      if variantIsNull imageVariant then some ts0
      else
        match env.loadTilesetImage ":/rtb_resources/tileset/Floor.png" with
        | none => none
        | some tiles =>
            some { ts0 with
                   imageSource := some ":/rtb_resources/tileset/Floor.png",
                   tiles := tiles }
    match loaded with
    | none =>
        (none, { st with
          mError := "Error loading tileset image:\n':/rtb_resources/tileset/Floor.png'" })
    | some ts1 =>
        let ts2 := { ts1 with properties := toProperties (lookupQ variantMap "properties") }
        let ts3 := addTerrains ts2 (toListQ (lookupQ variantMap "terrains"))
        let tilesVariantMap := toMapQ (lookupQ variantMap "tiles")
        match toTilesetTiles env tilesVariantMap.length st ts3 tilesVariantMap with
        | (none, st2) => (none, st2)
        | (some ts4, st2) =>
            let ts5 := applyTileProperties ts4 (toMapQ (lookupQ variantMap "tileproperties"))
            (some ts5, { st2 with mGidMapper := st2.mGidMapper ++ [(firstGid, ts5)] })

/-- `toRTBMap` (lines 457-491): the game-metadata record's fields read with
the per-field coercions of the source. -/
def toRTBMap (env : Env) (variantMap : List (String × Variant)) : RTBMap :=
  let glow := toStringQ (lookupQ variantMap "customglowcolor")
  let bg := toStringQ (lookupQ variantMap "custombackgroundcolor")
  { hasError := toIntQ (lookupQ variantMap "haserror"),
    customGlowColor := if glow != "" && env.isValidColor glow then some glow else none,
    customBackgroundColor := if bg != "" && env.isValidColor bg then some bg else none,
    levelBrightness := toRealQ (lookupQ variantMap "levelbrightness"),
    cloudDensity := toRealQ (lookupQ variantMap "clouddensity"),
    cloudVelocity := toRealQ (lookupQ variantMap "cloudvelocity"),
    cloudAlpha := toRealQ (lookupQ variantMap "cloudalpha"),
    snowDensity := toRealQ (lookupQ variantMap "snowdensity"),
    snowVelocity := toRealQ (lookupQ variantMap "snowvelocity"),
    snowRisingVelocity := toRealQ (lookupQ variantMap "snowrisingvelocity"),
    cameraGrain := toRealQ (lookupQ variantMap "cameragrain"),
    cameraContrast := toRealQ (lookupQ variantMap "cameracontrast"),
    cameraSaturation := toRealQ (lookupQ variantMap "camerasaturation"),
    cameraGlow := toRealQ (lookupQ variantMap "cameraglow"),
    hasWall := toIntQ (lookupQ variantMap "haswalls"),
    levelName := toStringQ (lookupQ variantMap "levelname"),
    levelDescription := toStringQ (lookupQ variantMap "leveldescription"),
    backgroundColorScheme := toIntQ (lookupQ variantMap "backgroundcolorscheme"),
    glowColorScheme := toIntQ (lookupQ variantMap "glowcolorscheme"),
    chapter := toIntQ (lookupQ variantMap "chapter"),
    hasStarfield := toIntQ (lookupQ variantMap "hasstarfield"),
    difficulty := toIntQ (lookupQ variantMap "difficulty"),
    playStyle := toIntQ (lookupQ variantMap "playstyle"),
    workShopId := toIntQ (lookupQ variantMap "workshopid"),
    previewImagePath := toStringQ (lookupQ variantMap "previewimagepath") }

/-- The tileset loop of `toMap` (lines 97-103): a null tileset aborts the
whole conversion. -/
def addTilesets (env : Env) :
    ConvState → List Variant → Map → Option Map × ConvState
  | st, [], m => (some m, st)
  | st, tv :: rest, m =>
    match toTileset env st tv with
    | (none, st2) => (none, st2)
    | (some ts, st2) =>
        addTilesets env st2 rest { m with tilesets := m.tilesets ++ [ts] }

/-- The layer loop of `toMap` (lines 105-111): a null layer aborts the whole
conversion. -/
def addLayers (env : Env) :
    ConvState → List Variant → Map → Option Map × ConvState
  | st, [], m => (some m, st)
  | st, lv :: rest, m =>
    match toLayer env st lv with
    | (none, st2) => (none, st2)
    | (some l, st2) =>
        addLayers env st2 rest { m with layers := m.layers ++ [l] }

/-- `toMap` (lines 46-114): the top-level assembly — the gid mapper is
cleared and the base directory stored, the orientation is validated
("Unsupported map orientation"), header fields and game metadata are read,
then tilesets and layers are built in document order; any null sub-result
yields a null document.  The error member is not cleared on entry (a fresh
converter starts with the empty string). -/
def toMap (env : Env) (st0 : ConvState) (variant : Variant) (mapDir : String) :
    Option Map × ConvState :=
  let st : ConvState := { st0 with mGidMapper := [], mMapDir := mapDir }
  let variantMap := toMapQ variant
  let orientationString := toStringQ (lookupQ variantMap "orientation")
  let orientation := orientationFromString orientationString
  if orientation = .unknown then
    (none, { st with
      mError := "Unsupported map orientation: \"" ++ orientationString ++ "\"" })
  else
    let nextObjectId := toIntQstr (toStringQ (lookupQ variantMap "nextobjectid"))
    let bgColor := toStringQ (lookupQ variantMap "backgroundcolor")
    let m0 : Map :=
      { orientation := orientation,
        width := toIntQ (lookupQ variantMap "width"),
        height := toIntQ (lookupQ variantMap "height"),
        tileWidth := toIntQ (lookupQ variantMap "tilewidth"),
        tileHeight := toIntQ (lookupQ variantMap "tileheight"),
        hexSideLength := toIntQ (lookupQ variantMap "hexsidelength"),
        staggerAxis := staggerAxisFromString (toStringQ (lookupQ variantMap "staggeraxis")),
        staggerIndex := staggerIndexFromString (toStringQ (lookupQ variantMap "staggerindex")),
        renderOrder := renderOrderFromString (toStringQ (lookupQ variantMap "renderorder")),
        nextObjectId := if nextObjectId ≠ 0 then nextObjectId else 1,
        backgroundColor :=
          if bgColor != "" && env.isValidColor bgColor then some bgColor else none,
        rtbMap := toRTBMap env variantMap,
        properties := toProperties (lookupQ variantMap "properties"),
        tilesets := [], layers := [] }
    match addTilesets env st (toListQ (lookupQ variantMap "tilesets")) m0 with
    | (none, st2) => (none, st2)
    | (some m1, st2) =>
        match addLayers env st2 (toListQ (lookupQ variantMap "layers")) m1 with
        | (none, st3) => (none, st3)
        | (some m2, st3) => (some m2, st3)

/-! ## Helper lemmas -/

theorem lookupQ_of_not_contains (m : List (String × Variant)) (k : String)
    (h : containsQ m k = false) : lookupQ m k = .null := by
  unfold containsQ at h
  unfold lookupQ
  cases he : lookupOpt m k with
  | none => rfl
  | some v => rw [he] at h; simp at h

theorem toBoolQ_null : toBoolQ .null = false := rfl

/-! ## Concrete inputs shared by the witnesses and counterexamples -/

/-- A fully inert environment: every load fails, no color is valid. -/
def envNone : Env :=
  { loadTilesetImage := fun _ => none, loadImage := fun _ => none,
    pixmapSize := fun _ => (0, 0), isValidColor := fun _ => false,
    rtbObjectType := fun _ => .noType }

/-- An environment whose tileset-image decoder succeeds only on the fixed
RTB resource path. -/
def envFloorOnly : Env :=
  { envNone with loadTilesetImage := fun p =>
      if p == ":/rtb_resources/tileset/Floor.png" then some [] else none }

/-- The state of a fresh converter: empty error string, empty mapper. -/
def stInit : ConvState := { mError := "", mGidMapper := [], mMapDir := "/maps" }

/-- A 16×16 tile with the given local id. -/
def tile16 (i : Int) : Tile :=
  { placeholderTile i with tileWidth := 16, tileHeight := 16 }

/-- A four-tile 16×16 tileset, the tileset of the spec's §8 scenario. -/
def tsFour : Tileset :=
  { name := "t", tileWidth := 16, tileHeight := 16, tileSpacing := 0,
    margin := 0, tileOffsetX := 0, tileOffsetY := 0, transparentColor := none,
    imageSource := none, terrains := [],
    tiles := [tile16 0, tile16 1, tile16 2, tile16 3], properties := [] }

/-- A state with `tsFour` registered under firstGid 1. -/
def stFour : ConvState := { mError := "", mGidMapper := [(1, tsFour)], mMapDir := "" }

/-! ## C9: teleporter / camera-trigger target sentinel -/

/-- C9 (confirmed): for the teleporter and camera-trigger extension
categories, a target field whose string value is the literal "0" is stored
as the empty string, and any other string value is stored verbatim. -/
theorem rtbTarget_sentinel (vm : List (String × Variant)) :
    toRTBMapObject RTBObjectType.teleporter vm =
      RTBMapObject.teleporter
        (if toStringQ (lookupQ vm "teleportertarget") = "0" then ""
         else toStringQ (lookupQ vm "teleportertarget")) ∧
    toRTBMapObject RTBObjectType.cameraTrigger vm =
      RTBMapObject.cameraTrigger
        (if toStringQ (lookupQ vm "cameratarget") = "0" then ""
         else toStringQ (lookupQ vm "cameratarget"))
        (toIntQ (lookupQ vm "cameratriggerzonewidth"))
        (toIntQ (lookupQ vm "cameratriggerzoneheight"))
        (toIntQ (lookupQ vm "cameraheight"))
        (toIntQ (lookupQ vm "cameraangle")) := by
  constructor
  · show RTBMapObject.teleporter _ = _
    by_cases h : toStringQ (lookupQ vm "teleportertarget") = "0" <;>
      simp [h]
  · show RTBMapObject.cameraTrigger _ _ _ _ _ = _
    by_cases h : toStringQ (lookupQ vm "cameratarget") = "0" <;>
      simp [h]

/-! ## C7: polyline overwrites polygon -/

/-- C7 (confirmed): an object record carrying both a polygon and a polyline
point list and no ellipse marker gets shape Polyline, and its point sequence
is the polyline list — the polygon assignment is applied first and then
overwritten. -/
theorem object_polyline_wins (env : Env) (st : ConvState)
    (ovm : List (String × Variant))
    (hpg : variantIsValid (lookupQ ovm "polygon") = true)
    (hpl : variantIsValid (lookupQ ovm "polyline") = true)
    (hel : containsQ ovm "ellipse" = false) :
    (buildObject env st ovm).shape = Shape.polyline ∧
    (buildObject env st ovm).polygon = toPolygon (lookupQ ovm "polyline") := by
  unfold buildObject
  simp only [hpg, hpl, hel, if_true, if_false, Bool.false_eq_true]
  constructor <;> trivial

/-- Witness for C7 at a concrete record carrying both point lists. -/
theorem object_polyline_wins_witness :
    variantIsValid (lookupQ [("polygon", Variant.vList [Variant.vMap [("x", Variant.vInt 1), ("y", Variant.vInt 2)]]), ("polyline", Variant.vList [Variant.vMap [("x", Variant.vInt 3), ("y", Variant.vInt 4)]])] "polygon") = true ∧
    (buildObject envNone stInit [("polygon", Variant.vList [Variant.vMap [("x", Variant.vInt 1), ("y", Variant.vInt 2)]]), ("polyline", Variant.vList [Variant.vMap [("x", Variant.vInt 3), ("y", Variant.vInt 4)]])]).shape = Shape.polyline ∧
    (buildObject envNone stInit [("polygon", Variant.vList [Variant.vMap [("x", Variant.vInt 1), ("y", Variant.vInt 2)]]), ("polyline", Variant.vList [Variant.vMap [("x", Variant.vInt 3), ("y", Variant.vInt 4)]])]).polygon = toPolygon (lookupQ [("polygon", Variant.vList [Variant.vMap [("x", Variant.vInt 1), ("y", Variant.vInt 2)]]), ("polyline", Variant.vList [Variant.vMap [("x", Variant.vInt 3), ("y", Variant.vInt 4)]])] "polyline") := by
  refine ⟨by decide, ?_⟩
  exact object_polyline_wins envNone stInit _ (by decide) (by decide) (by decide)

/-! ## C8: tile-stamp size backfill -/

/-- C8 (confirmed): when an object's tile-stamp gid resolves to a nonempty
cell, a record width of 0 is replaced by the referenced tile's native width
and a record height of 0 by its native height; nonzero record dimensions are
kept unchanged. -/
theorem object_stamp_backfill (env : Env) (st : ConvState)
    (ovm : List (String × Variant)) (c : CellRef)
    (hg0 : toIntQ (lookupQ ovm "gid") ≠ 0)
    (hc : gidToCell st.mGidMapper (((toIntQ (lookupQ ovm "gid")).emod (2 ^ 32)).toNat) = some c) :
    (buildObject env st ovm).cell = some c ∧
    (buildObject env st ovm).width =
      (if toRealQ (lookupQ ovm "width") = 0 then (c.tileWidth : Rat)
       else toRealQ (lookupQ ovm "width")) ∧
    (buildObject env st ovm).height =
      (if toRealQ (lookupQ ovm "height") = 0 then (c.tileHeight : Rat)
       else toRealQ (lookupQ ovm "height")) := by
  unfold buildObject
  simp only [hg0, hc, if_true, ite_true, ne_eq, not_false_eq_true]
  exact ⟨trivial, trivial, trivial⟩

/-- Witness for C8: a stamped object with record width 0 and height 7
against the registered four-tile 16×16 tileset. -/
theorem object_stamp_backfill_witness :
    toIntQ (lookupQ [("gid", Variant.vInt 1), ("width", Variant.vInt 0), ("height", Variant.vInt 7)] "gid") ≠ 0 ∧
    (buildObject envNone stFour [("gid", Variant.vInt 1), ("width", Variant.vInt 0), ("height", Variant.vInt 7)]).width =
      (if toRealQ (lookupQ [("gid", Variant.vInt 1), ("width", Variant.vInt 0), ("height", Variant.vInt 7)] "width") = 0
       then ((tile16 0).tileWidth : Rat)
       else toRealQ (lookupQ [("gid", Variant.vInt 1), ("width", Variant.vInt 0), ("height", Variant.vInt 7)] "width")) ∧
    (buildObject envNone stFour [("gid", Variant.vInt 1), ("width", Variant.vInt 0), ("height", Variant.vInt 7)]).height =
      (if toRealQ (lookupQ [("gid", Variant.vInt 1), ("width", Variant.vInt 0), ("height", Variant.vInt 7)] "height") = 0
       then ((tile16 0).tileHeight : Rat)
       else toRealQ (lookupQ [("gid", Variant.vInt 1), ("width", Variant.vInt 0), ("height", Variant.vInt 7)] "height")) := by
  have h := object_stamp_backfill envNone stFour
    [("gid", Variant.vInt 1), ("width", Variant.vInt 0), ("height", Variant.vInt 7)]
    { firstGid := 1, tileId := 0, tileWidth := 16, tileHeight := 16 }
    (by decide) (by decide)
  exact ⟨by decide, h.2.1, h.2.2⟩

/-! ## C10: layers without a "visible" key are invisible, objects visible -/

/-- C10 (confirmed): a layer record of any of the three kinds that omits the
"visible" key yields a layer whose visibility flag is false (the missing
value is coerced through `toBool` to false), whereas an object record
without the key keeps the default visibility true. -/
theorem layer_visible_defaults_false (env : Env) (st : ConvState)
    (vm ovm : List (String × Variant))
    (hvm : containsQ vm "visible" = false)
    (hovm : containsQ ovm "visible" = false) :
    ((toTileLayer env st vm).1.map TileLayer.visible).getD false = false ∧
    ((toObjectGroup env st vm).1.map ObjectGroup.visible).getD false = false ∧
    ((toImageLayer env st vm).1.map ImageLayer.visible).getD false = false ∧
    (buildObject env st ovm).visible = true := by
  have hl : lookupQ vm "visible" = .null := lookupQ_of_not_contains vm "visible" hvm
  refine ⟨?_, ?_, ?_, ?_⟩
  · simp only [toTileLayer, hl, toBoolQ_null]
    repeat' split
    all_goals rfl
  · simp only [toObjectGroup, hl, toBoolQ_null]
    repeat' split
    all_goals rfl
  · simp only [toImageLayer, hl, toBoolQ_null]
    repeat' split
    all_goals rfl
  · unfold buildObject
    simp only [hovm, Bool.false_eq_true, if_false]

/-- Witness for C10 at the empty layer and object records, on which all
three layer builders succeed. -/
theorem layer_visible_defaults_false_witness :
    containsQ ([] : List (String × Variant)) "visible" = false ∧
    ((toTileLayer envNone stInit []).1.map TileLayer.visible).getD false = false ∧
    ((toObjectGroup envNone stInit []).1.map ObjectGroup.visible).getD false = false ∧
    ((toImageLayer envNone stInit []).1.map ImageLayer.visible).getD false = false ∧
    (buildObject envNone stInit []).visible = true ∧
    (toTileLayer envNone stInit []).1.isSome = true ∧
    (toObjectGroup envNone stInit []).1.isSome = true ∧
    (toImageLayer envNone stInit []).1.isSome = true := by
  have h := layer_visible_defaults_false envNone stInit [] [] rfl rfl
  exact ⟨rfl, h.1, h.2.1, h.2.2.1, h.2.2.2, rfl, rfl, rfl⟩

/-! ## C2: failure messages, and the silent unknown-layer-type failure -/

/-- A map whose single layer has the unrecognized type "foo". -/
def mapUnknownLayer : Variant :=
  .vMap [("orientation", .vStr "orthogonal"),
         ("layers", .vList [.vMap [("type", .vStr "foo")]])]

/-- C2 counterexample: on a fresh converter, a map whose only layer has the
unrecognized type "foo" makes the whole conversion fail while the error
string stays empty — the failure is not accompanied by any message. -/
theorem toMap_unknownLayer_no_message :
    (toMap envNone stInit mapUnknownLayer "").1.isNone = true ∧
    (toMap envNone stInit mapUnknownLayer "").2.mError = "" :=
  ⟨rfl, rfl⟩

/-- C2 as amended (proved): a layer record whose type discriminator is none
of tilelayer/objectgroup/imagelayer yields a null layer with the converter
state — in particular the error string — left completely unchanged, so the
resulting conversion failure carries no message describing it. -/
theorem toLayer_unknown_type_silent (env : Env) (st : ConvState) (v : Variant)
    (h1 : variantEqStr (lookupQ (toMapQ v) "type") "tilelayer" = false)
    (h2 : variantEqStr (lookupQ (toMapQ v) "type") "objectgroup" = false)
    (h3 : variantEqStr (lookupQ (toMapQ v) "type") "imagelayer" = false) :
    toLayer env st v = (none, st) := by
  unfold toLayer
  simp only [h1, h2, h3, Bool.false_eq_true, if_false]

/-- Witness for the amended C2 at the layer record of type "foo". -/
theorem toLayer_unknown_type_silent_witness :
    variantEqStr (lookupQ (toMapQ (Variant.vMap [("type", Variant.vStr "foo")])) "type") "tilelayer" = false ∧
    toLayer envNone stInit (Variant.vMap [("type", Variant.vStr "foo")]) = (none, stInit) :=
  ⟨by decide, toLayer_unknown_type_silent envNone stInit _ (by decide) (by decide) (by decide)⟩

/-! ## C3: negative tile index sets the error but does not abort -/

/-- A tileset record with valid parameters whose override map holds the
single negative index -1. -/
def tsNegIndexRec : Variant :=
  .vMap [("firstgid", .vInt 1), ("tilewidth", .vInt 16),
         ("tileheight", .vInt 16), ("tiles", .vMap [("-1", .vMap [])])]

/-- C3 counterexample: a tileset record whose override map contains the
negative index -1 does NOT make the tileset builder fail — the builder
returns a tileset (so the conversion is not aborted), while the negative
index error message is left behind in the error string. -/
theorem toTileset_negative_index_not_fatal :
    (toTileset envNone stInit tsNegIndexRec).1.isSome = true ∧
    (toTileset envNone stInit tsNegIndexRec).2.mError =
      "Tileset tile index negative:\n'-1'" :=
  ⟨rfl, rfl⟩

/-- Helper: a negative tile index is outside the tile sequence, so the
override block is skipped entirely. -/
theorem applyTileOverrides_neg (env : Env) (st : ConvState) (ts : Tileset)
    (i : Int) (tv : List (String × Variant)) (h : i < 0) :
    applyTileOverrides env st ts i tv = (ts, st) := by
  unfold applyTileOverrides Tileset.tileAt
  simp only [h, if_true, ite_true]

/-- C3 as amended (proved): an override entry with a negative tile index
sets the error string to the "index negative" message but does not abort:
no tile exists at the negative index, so the entry's overrides are skipped
and processing continues with the remaining entries on the same tileset. -/
theorem toTilesetTiles_negative_continues (env : Env) (n : Nat)
    (st : ConvState) (ts : Tileset) (k : String) (v : Variant)
    (rest : List (String × Variant)) (hneg : toIntQstr k < 0) :
    toTilesetTiles env n st ts ((k, v) :: rest) =
      toTilesetTiles env n
        { st with mError := "Tileset tile index negative:\n'" ++ toString (toIntQstr k) ++ "'" }
        ts rest := by
  have hlen : ¬ ((ts.tiles.length : Int) ≤ toIntQstr k) := by
    have : (0 : Int) ≤ (ts.tiles.length : Int) := Int.ofNat_nonneg _
    omega
  conv_lhs => unfold toTilesetTiles
  simp only [hneg, if_true, ite_true, hlen, if_false, ite_false,
    applyTileOverrides_neg env _ ts (toIntQstr k) _ hneg]

/-- Witness for the amended C3 at the concrete entry with index "-1". -/
theorem toTilesetTiles_negative_continues_witness :
    toIntQstr "-1" < 0 ∧
    toTilesetTiles envNone 1 stInit tsFour [("-1", Variant.vMap [])] =
      toTilesetTiles envNone 1
        { stInit with mError := "Tileset tile index negative:\n'" ++ toString (toIntQstr "-1") ++ "'" }
        tsFour [] :=
  ⟨by decide, toTilesetTiles_negative_continues envNone 1 stInit tsFour "-1" (Variant.vMap []) [] (by decide)⟩

/-! ## Preservation lemmas about the tileset loops -/

theorem applyTileOverrides_fst_imageSource (env : Env) (st : ConvState)
    (ts : Tileset) (i : Int) (tv : List (String × Variant)) :
    ((applyTileOverrides env st ts i tv).1).imageSource = ts.imageSource := by
  unfold applyTileOverrides
  split <;> rfl

theorem applyTileOverrides_fst_length (env : Env) (st : ConvState)
    (ts : Tileset) (i : Int) (tv : List (String × Variant)) :
    ((applyTileOverrides env st ts i tv).1).tiles.length = ts.tiles.length := by
  unfold applyTileOverrides
  split
  · rfl
  · simp [Tileset.setTileAt]

theorem addTiles_length (k : Nat) : ∀ ts : Tileset,
    (ts.addTiles k).tiles.length = ts.tiles.length + k := by
  induction k with
  | zero => intro ts; rfl
  | succ n ih =>
      intro ts
      show ((ts.addTile).addTiles n).tiles.length = _
      rw [ih]
      simp [Tileset.addTile]
      omega

theorem addTiles_imageSource (k : Nat) : ∀ ts : Tileset,
    (ts.addTiles k).imageSource = ts.imageSource := by
  induction k with
  | zero => intro ts; rfl
  | succ n ih =>
      intro ts
      show ((ts.addTile).addTiles n).imageSource = _
      rw [ih]
      rfl

theorem extendTo_length (ts : Tileset) (i : Int)
    (h : (ts.tiles.length : Int) ≤ i) :
    ((ts.extendTo i).tiles.length : Int) = i + 1 := by
  unfold Tileset.extendTo
  rw [addTiles_length]
  omega

theorem extendTo_imageSource (ts : Tileset) (i : Int) :
    (ts.extendTo i).imageSource = ts.imageSource := by
  unfold Tileset.extendTo
  rw [addTiles_imageSource]

theorem toTilesetTiles_imageSource (env : Env) (n : Nat) :
    ∀ (es : List (String × Variant)) (st : ConvState) (ts ts2 : Tileset)
      (st2 : ConvState),
      toTilesetTiles env n st ts es = (some ts2, st2) →
      ts2.imageSource = ts.imageSource := by
  intro es
  induction es with
  | nil =>
      intro st ts ts2 st2 h
      unfold toTilesetTiles at h
      cases h
      rfl
  | cons e rest ih =>
      intro st ts ts2 st2 h
      unfold toTilesetTiles at h
      dsimp only at h
      split at h
      · split at h
        · cases h
        · have h2 := ih _ _ _ _ h
          rw [h2, applyTileOverrides_fst_imageSource, extendTo_imageSource]
      · have h2 := ih _ _ _ _ h
        rw [h2, applyTileOverrides_fst_imageSource]

theorem applyTileProperties_imageSource :
    ∀ (entries : List (String × Variant)) (ts : Tileset),
      (applyTileProperties ts entries).imageSource = ts.imageSource := by
  intro entries
  induction entries with
  | nil => intro ts; rfl
  | cons e rest ih =>
      intro ts
      show (applyTileProperties _ rest).imageSource = _
      rw [ih]
      dsimp only
      split
      · split <;> rfl
      · rfl

theorem addTerrains_imageSource :
    ∀ (l : List Variant) (ts : Tileset),
      (addTerrains ts l).imageSource = ts.imageSource := by
  intro l
  induction l with
  | nil => intro ts; rfl
  | cons v rest ih =>
      intro ts
      show (addTerrains _ rest).imageSource = _
      rw [ih]

/-! ## C1: the shared tileset image is loaded from a fixed path -/

/-- A tileset record with valid parameters naming the absolute image path
"/maps/foo.png". -/
def tsImageRec : Variant :=
  .vMap [("firstgid", .vInt 1), ("tilewidth", .vInt 16),
         ("tileheight", .vInt 16), ("image", .vStr "/maps/foo.png")]

/-- C1 counterexample: with a decoder that fails on every path except the
fixed RTB resource path, the image named by the record — resolved against
the base directory — fails to decode, yet the tileset builder succeeds, and
the built tileset's image source is the fixed resource path rather than the
record's path.  So decode failure of the record's image is not fatal and the
record's path is not what is loaded. -/
theorem toTileset_ignores_record_image_path :
    (envFloorOnly.loadTilesetImage (resolvePath "/maps" (Variant.vStr "/maps/foo.png"))).isNone = true ∧
    (toTileset envFloorOnly stInit tsImageRec).1.isSome = true ∧
    ((toTileset envFloorOnly stInit tsImageRec).1.map Tileset.imageSource).getD none =
      some ":/rtb_resources/tileset/Floor.png" :=
  ⟨by decide, by decide, by decide⟩

/-- C1 as amended (proved): for a tileset record with valid parameters whose
image field is present, the builder always loads the shared image from the
fixed resource path ":/rtb_resources/tileset/Floor.png" (ignoring the
record's image path and the base directory): if decoding that fixed image
fails the builder fails with the "Error loading tileset image" message, and
any successfully built tileset records that fixed path as its image
source. -/
theorem toTileset_image_fixed_path (env : Env) (st : ConvState) (v : Variant)
    (himg : variantIsNull (lookupQ (toMapQ v) "image") = false)
    (hpar : ¬ (toIntQ (lookupQ (toMapQ v) "tilewidth") ≤ 0 ∨
               toIntQ (lookupQ (toMapQ v) "tileheight") ≤ 0 ∨
               toIntQ (lookupQ (toMapQ v) "firstgid") = 0)) :
    (env.loadTilesetImage ":/rtb_resources/tileset/Floor.png" = none →
      (toTileset env st v).1 = none ∧
      (toTileset env st v).2.mError =
        "Error loading tileset image:\n':/rtb_resources/tileset/Floor.png'") ∧
    ((toTileset env st v).1.map Tileset.imageSource).getD
        (some ":/rtb_resources/tileset/Floor.png") =
      some ":/rtb_resources/tileset/Floor.png" := by
  constructor
  · intro hload
    unfold toTileset
    simp only [himg, hpar, hload, Bool.false_eq_true, if_false, ite_false]
    constructor <;> trivial
  · unfold toTileset
    simp only [himg, hpar, Bool.false_eq_true, if_false, ite_false]
    cases hload : env.loadTilesetImage ":/rtb_resources/tileset/Floor.png" with
    | none => rfl
    | some tiles =>
        dsimp only
        split
        · rfl
        · rename_i ts4 st2 heq
          have h1 := toTilesetTiles_imageSource env _ _ _ _ _ _ heq
          rw [addTerrains_imageSource] at h1
          show (applyTileProperties ts4 (toMapQ (lookupQ (toMapQ v) "tileproperties"))).imageSource =
            some ":/rtb_resources/tileset/Floor.png"
          rw [applyTileProperties_imageSource]
          exact h1

/-- Witness for the amended C1, applying it both with a decoder that fails
on the fixed path (the fatal branch) and with one that succeeds there (the
image-source branch). -/
theorem toTileset_image_fixed_path_witness :
    variantIsNull (lookupQ (toMapQ tsImageRec) "image") = false ∧
    ((toTileset envNone stInit tsImageRec).1 = none ∧
      (toTileset envNone stInit tsImageRec).2.mError =
        "Error loading tileset image:\n':/rtb_resources/tileset/Floor.png'") ∧
    ((toTileset envFloorOnly stInit tsImageRec).1.map Tileset.imageSource).getD
        (some ":/rtb_resources/tileset/Floor.png") =
      some ":/rtb_resources/tileset/Floor.png" := by
  refine ⟨by decide, ?_, ?_⟩
  · exact (toTileset_image_fixed_path envNone stInit tsImageRec (by decide) (by decide)).1 rfl
  · exact (toTileset_image_fixed_path envFloorOnly stInit tsImageRec (by decide) (by decide)).2

/-! ## C4: override growth is capped by the number of entries -/

theorem toTilesetTiles_length_le (env : Env) (n : Nat) :
    ∀ (es : List (String × Variant)) (st : ConvState) (ts ts2 : Tileset)
      (st2 : ConvState),
      toTilesetTiles env n st ts es = (some ts2, st2) →
      ts2.tiles.length ≤ max ts.tiles.length n := by
  intro es
  induction es with
  | nil =>
      intro st ts ts2 st2 h
      unfold toTilesetTiles at h
      cases h
      exact Nat.le_max_left _ _
  | cons e rest ih =>
      intro st ts ts2 st2 h
      unfold toTilesetTiles at h
      dsimp only at h
      split at h
      · rename_i hge
        split at h
        · cases h
        · rename_i hlt
          have h2 := ih _ _ _ _ h
          rw [applyTileOverrides_fst_length] at h2
          have h3 := extendTo_length ts (toIntQstr e.1) hge
          omega
      · have h2 := ih _ _ _ _ h
        rw [applyTileOverrides_fst_length] at h2
        omega

/-- C4 (confirmed): processing a tileset record's N override entries never
grows the tile sequence beyond N tiles — the built sequence is bounded by
the larger of its initial length and N — and an override index at or beyond
both the current tile count and N is fatal with the "tile index too high"
error instead of triggering growth. -/
theorem toTilesetTiles_growth_capped (env : Env) (st : ConvState)
    (ts : Tileset) (entries : List (String × Variant)) :
    (∀ ts2 st2, toTilesetTiles env entries.length st ts entries = (some ts2, st2) →
      ts2.tiles.length ≤ max ts.tiles.length entries.length) ∧
    (∀ k v rest, entries = (k, v) :: rest →
      (ts.tiles.length : Int) ≤ toIntQstr k →
      (entries.length : Int) ≤ toIntQstr k →
      (toTilesetTiles env entries.length st ts entries).1 = none ∧
      (toTilesetTiles env entries.length st ts entries).2.mError =
        "Tileset tile index too high:\n'" ++ toString (toIntQstr k) ++ "'") := by
  constructor
  · intro ts2 st2 h
    exact toTilesetTiles_length_le env entries.length entries st ts ts2 st2 h
  · intro k v rest he hcount hn
    subst he
    have hpos : ¬ (toIntQstr k < 0) := by
      have : (0 : Int) ≤ (ts.tiles.length : Int) := Int.ofNat_nonneg _
      omega
    unfold toTilesetTiles
    dsimp only
    simp only [hpos, if_false, ite_false, hcount, hn, if_true, ite_true]
    constructor <;> trivial

/-- Witness for C4: one entry with index 7 against the four-tile tileset —
the index is beyond both the tile count (4) and the entry count (1), so the
loop fails with the "tile index too high" message. -/
theorem toTilesetTiles_growth_capped_witness :
    (tsFour.tiles.length : Int) ≤ toIntQstr "7" ∧
    (toTilesetTiles envNone 1 stInit tsFour [("7", Variant.vMap [])]).1 = none ∧
    (toTilesetTiles envNone 1 stInit tsFour [("7", Variant.vMap [])]).2.mError =
      "Tileset tile index too high:\n'" ++ toString (toIntQstr "7") ++ "'" := by
  refine ⟨by decide, ?_⟩
  exact (toTilesetTiles_growth_capped envNone stInit tsFour
    [("7", Variant.vMap [])]).2 "7" (Variant.vMap []) [] rfl (by decide) (by decide)

/-! ## C5: row-major cell filling -/

/-- The data loop writes the resolved cells at consecutive row-major
positions: starting from column x of row y it succeeds on all-numeric data,
preserves the grid length and the positions before the start, and the k-th
data entry lands at start + k. -/
theorem fillCells_spec (gm : List (Int × Tileset)) (w : Int) (nm : String)
    (hw : 0 < w) :
    ∀ (data : List Variant) (x y : Int) (grid : List Cell),
      0 ≤ x → x < w → 0 ≤ y →
      (x + y * w).toNat + data.length ≤ grid.length →
      (∀ v ∈ data, (toUIntOkQ v).isSome) →
      ∃ cells, fillCells gm w nm x y grid data = Except.ok cells ∧
        cells.length = grid.length ∧
        (∀ j, j < (x + y * w).toNat → cells[j]? = grid[j]?) ∧
        (∀ k, k < data.length →
          cells[(x + y * w).toNat + k]? =
            (data[k]?).map fun v => gidToCell gm ((toUIntOkQ v).getD 0)) := by
  intro data
  induction data with
  | nil =>
      intro x y grid hx hxw hy hlen hnum
      exact ⟨grid, rfl, rfl, fun j _ => rfl, fun k hk => absurd hk (Nat.not_lt_zero k)⟩
  | cons v rest ih =>
      intro x y grid hx hxw hy hlen hnum
      obtain ⟨g, hg⟩ := Option.isSome_iff_exists.mp (hnum v (List.mem_cons_self v rest))
      have hpos : 0 ≤ x + y * w := by
        have hyw : 0 ≤ y * w := mul_nonneg hy (le_of_lt hw)
        omega
      have hpn : ((x + y * w).toNat : Int) = x + y * w := Int.toNat_of_nonneg hpos
      have hlen2 : (x + y * w).toNat + (rest.length + 1) ≤ grid.length := by
        simpa using hlen
      have hplt : (x + y * w).toNat < grid.length := by omega
      by_cases hcase : w ≤ x + 1
      · -- end of the row: wrap to column 0 of the next row
        have hx1 : x + 1 = w := by omega
        have hstep : 0 + (y + 1) * w = (x + y * w) + 1 := by
          have : (y + 1) * w = y * w + w := by ring
          omega
        have hp2 : (0 + (y + 1) * w).toNat = (x + y * w).toNat + 1 := by omega
        obtain ⟨cells, hrun, hlenc, hkeep, hcov⟩ :=
          ih 0 (y + 1) (grid.set (x + y * w).toNat (gidToCell gm g))
            (le_refl 0) hw (by omega)
            (by rw [List.length_set]; omega)
            (fun u hu => hnum u (List.mem_cons_of_mem v hu))
        refine ⟨cells, ?_, ?_, ?_, ?_⟩
        · simp only [fillCells, hg]
          rw [if_pos hcase]
          exact hrun
        · rw [hlenc, List.length_set]
        · intro j hj
          rw [hkeep j (by omega)]
          exact List.getElem?_set_ne (by omega)
        · intro k hk
          match k with
          | 0 =>
              rw [Nat.add_zero, hkeep (x + y * w).toNat (by omega),
                List.getElem?_set_eq_of_lt _ hplt]
              simp [hg]
          | k' + 1 =>
              have := hcov k' (by simpa using hk)
              rw [hp2] at this
              rw [show (x + y * w).toNat + (k' + 1) = (x + y * w).toNat + 1 + k' by omega,
                this]
              simp
      · -- continue within the row
        have hstep : (x + 1) + y * w = (x + y * w) + 1 := by omega
        have hp2 : ((x + 1) + y * w).toNat = (x + y * w).toNat + 1 := by omega
        obtain ⟨cells, hrun, hlenc, hkeep, hcov⟩ :=
          ih (x + 1) y (grid.set (x + y * w).toNat (gidToCell gm g))
            (by omega) (by omega) hy
            (by rw [List.length_set]; omega)
            (fun u hu => hnum u (List.mem_cons_of_mem v hu))
        refine ⟨cells, ?_, ?_, ?_, ?_⟩
        · simp only [fillCells, hg]
          rw [if_neg hcase]
          exact hrun
        · rw [hlenc, List.length_set]
        · intro j hj
          rw [hkeep j (by omega)]
          exact List.getElem?_set_ne (by omega)
        · intro k hk
          match k with
          | 0 =>
              rw [Nat.add_zero, hkeep (x + y * w).toNat (by omega),
                List.getElem?_set_eq_of_lt _ hplt]
              simp [hg]
          | k' + 1 =>
              have := hcov k' (by simpa using hk)
              rw [hp2] at this
              rw [show (x + y * w).toNat + (k' + 1) = (x + y * w).toNat + 1 + k' by omega,
                this]
              simp

/-- C5 (confirmed): a tile-layer record with all-numeric data of length
exactly width×height yields a tile layer of exactly width×height cells, the
cell at row-major index y·width+x being the data entry at that index
resolved through the global-id mapper; and gid 0 resolves to the empty
cell. -/
theorem toTileLayer_rowMajor (env : Env) (st : ConvState)
    (vm : List (String × Variant)) (w h : Int) (data : List Variant)
    (hw : w = toIntQ (lookupQ vm "width"))
    (hh : h = toIntQ (lookupQ vm "height"))
    (hd : data = toListQ (lookupQ vm "data"))
    (hwpos : 0 < w)
    (hlen : (data.length : Int) = w * h)
    (hnum : ∀ v ∈ data, (toUIntOkQ v).isSome) :
    ∃ tl, (toTileLayer env st vm).1 = some tl ∧
      tl.cells.length = (w * h).toNat ∧
      gidToCell st.mGidMapper 0 = none ∧
      (∀ x y : Int, 0 ≤ x → x < w → 0 ≤ y → y < h →
        tl.cells[(y * w + x).toNat]? =
          (data[(y * w + x).toNat]?).map fun v =>
            gidToCell st.mGidMapper ((toUIntOkQ v).getD 0)) := by
  have hstart : ((0 : Int) + 0 * w).toNat = 0 := by simp
  have hlen0 : ((List.replicate (w * h).toNat (none : Cell)).length) = data.length := by
    rw [List.length_replicate]; omega
  obtain ⟨cells, hrun, hlenc, _, hcov⟩ :=
    fillCells_spec st.mGidMapper w (toStringQ (lookupQ vm "name")) hwpos data 0 0
      (List.replicate (w * h).toNat none)
      (le_refl 0) hwpos (le_refl 0)
      (by rw [hstart, hlen0]; omega)
      hnum
  have hguard : ¬ (((toListQ (lookupQ vm "data")).length : Int) ≠
      toIntQ (lookupQ vm "width") * toIntQ (lookupQ vm "height")) := by
    rw [← hw, ← hh, ← hd]
    exact fun hc => hc hlen
  refine ⟨{ name := toStringQ (lookupQ vm "name"), x := toIntQ (lookupQ vm "x"),
            y := toIntQ (lookupQ vm "y"), width := toIntQ (lookupQ vm "width"),
            height := toIntQ (lookupQ vm "height"),
            opacity := toRealQ (lookupQ vm "opacity"),
            visible := toBoolQ (lookupQ vm "visible"),
            cells := cells, properties := [] }, ?_, ?_, ?_, ?_⟩
  · unfold toTileLayer
    rw [if_neg hguard]
    dsimp only
    rw [hw, hh, hd] at hrun
    rw [hrun]
  · dsimp only
    rw [hlenc, List.length_replicate]
  · rfl
  · intro x y hx hxlt hy hylt
    have hyw : y * w + x + 1 ≤ h * w := by
      have h1 : (y + 1) * w ≤ h * w :=
        mul_le_mul_of_nonneg_right (by omega) (le_of_lt hwpos)
      have h2 : (y + 1) * w = y * w + w := by ring
      omega
    have hne : 0 ≤ y * w := mul_nonneg hy (le_of_lt hwpos)
    have hklt : (y * w + x).toNat < data.length := by
      have : w * h = h * w := by ring
      omega
    have := hcov (y * w + x).toNat (by omega)
    rw [hstart, Nat.zero_add] at this
    exact this

/-- Witness for C5 at the spec's §8 scenario: one tileset (firstGid 1, four
16×16 tiles) and a 2×2 layer with data [0,1,2,5]; the cells come out as
empty, tile 0, tile 1, empty. -/
theorem toTileLayer_rowMajor_witness :
    (∃ tl, (toTileLayer envNone stFour
        [("name", Variant.vStr "L"), ("width", Variant.vInt 2), ("height", Variant.vInt 2),
         ("data", Variant.vList [Variant.vInt 0, Variant.vInt 1, Variant.vInt 2, Variant.vInt 5])]).1 = some tl ∧
      tl.cells.length = ((2 : Int) * 2).toNat ∧
      gidToCell stFour.mGidMapper 0 = none ∧
      (∀ x y : Int, 0 ≤ x → x < 2 → 0 ≤ y → y < 2 →
        tl.cells[(y * 2 + x).toNat]? =
          (([Variant.vInt 0, Variant.vInt 1, Variant.vInt 2, Variant.vInt 5] : List Variant)[(y * 2 + x).toNat]?).map
            fun v => gidToCell stFour.mGidMapper ((toUIntOkQ v).getD 0))) ∧
    ((toTileLayer envNone stFour
        [("name", Variant.vStr "L"), ("width", Variant.vInt 2), ("height", Variant.vInt 2),
         ("data", Variant.vList [Variant.vInt 0, Variant.vInt 1, Variant.vInt 2, Variant.vInt 5])]).1.map
      fun tl => tl.cells.map fun c => c.map CellRef.tileId) =
      some [none, some 0, some 1, none] := by
  constructor
  · exact toTileLayer_rowMajor envNone stFour _ 2 2 _ rfl rfl rfl
      (by decide) (by decide) (by decide)
  · decide

/-! ## C6: data length mismatch is fatal for the whole conversion -/

/-- A layer on which `toLayer` fails for every state makes the layer loop —
and with it the conversion — fail whenever that layer occurs in the list. -/
theorem addLayers_mem_none (env : Env) (bad : Variant)
    (hbad : ∀ st, (toLayer env st bad).1 = none) :
    ∀ (lvs : List Variant) (st : ConvState) (m : Map), bad ∈ lvs →
      (addLayers env st lvs m).1 = none := by
  intro lvs
  induction lvs with
  | nil =>
      intro st m hmem
      cases hmem
  | cons lv rest ih =>
      intro st m hmem
      unfold addLayers
      rcases List.mem_cons.mp hmem with heq | hmem2
      · subst heq
        cases hl : toLayer env st bad with
        | mk ofst osnd =>
            have h1 := hbad st
            rw [hl] at h1
            dsimp only at h1
            subst h1
            rfl
      · cases hl : toLayer env st lv with
        | mk ofst osnd =>
            cases ofst with
            | none => rfl
            | some l => exact ih _ _ hmem2

/-- C6 (confirmed): a tile-layer record whose data length differs from
width×height fails with the "Corrupt layer data" error naming the layer,
and a document whose layer list contains such a record converts to no
document at all. -/
theorem toTileLayer_corrupt_data (env : Env) (vm : List (String × Variant))
    (hlen : ((toListQ (lookupQ vm "data")).length : Int) ≠
      toIntQ (lookupQ vm "width") * toIntQ (lookupQ vm "height")) :
    (∀ st, toTileLayer env st vm =
      (none, { st with mError :=
        "Corrupt layer data for layer '" ++ toStringQ (lookupQ vm "name") ++ "'" })) ∧
    (∀ (st0 : ConvState) (dir : String) (mv lv : Variant),
      lv ∈ toListQ (lookupQ (toMapQ mv) "layers") → toMapQ lv = vm →
      variantEqStr (lookupQ vm "type") "tilelayer" = true →
      (toMap env st0 mv dir).1 = none) := by
  have htl : ∀ st, toTileLayer env st vm =
      (none, { st with mError :=
        "Corrupt layer data for layer '" ++ toStringQ (lookupQ vm "name") ++ "'" }) := by
    intro st
    unfold toTileLayer
    rw [if_pos hlen]
  refine ⟨htl, ?_⟩
  intro st0 dir mv lv hmem heqvm htype
  have hbad : ∀ st1, (toLayer env st1 lv).1 = none := by
    intro st1
    unfold toLayer
    rw [heqvm]
    simp only [htype, if_true, ite_true, htl st1]
    rfl
  unfold toMap
  dsimp only
  split
  · rfl
  · split
    · rfl
    · rename_i m1 st2 hts
      have hnone := addLayers_mem_none env lv hbad
        (toListQ (lookupQ (toMapQ mv) "layers")) st2 m1 hmem
      split
      · rfl
      · rename_i m2 st3 hal
        rw [hal] at hnone
        exact absurd hnone (by simp)

/-- The corrupt tile-layer record of the spec's §8 scenario: width 3,
height 3, but 8 data entries. -/
def corruptLayerRec : List (String × Variant) :=
  [("name", Variant.vStr "L"), ("width", Variant.vInt 3), ("height", Variant.vInt 3),
   ("type", Variant.vStr "tilelayer"),
   ("data", Variant.vList (List.replicate 8 (Variant.vInt 0)))]

/-- Witness for C6 at the §8 scenario: the builder fails with the message
naming layer L, and the document containing that layer converts to none. -/
theorem toTileLayer_corrupt_data_witness :
    toTileLayer envNone stInit corruptLayerRec =
      (none, { stInit with mError :=
        "Corrupt layer data for layer '" ++ toStringQ (lookupQ corruptLayerRec "name") ++ "'" }) ∧
    (toMap envNone stInit
      (Variant.vMap [("orientation", Variant.vStr "orthogonal"),
        ("layers", Variant.vList [Variant.vMap corruptLayerRec])]) "").1 = none := by
  have h := toTileLayer_corrupt_data envNone corruptLayerRec (by decide)
  refine ⟨h.1 stInit, ?_⟩
  exact h.2 stInit "" _ (Variant.vMap corruptLayerRec)
    (List.mem_cons_self _ _) rfl (by decide)

end Tiled
